/-
Verification of the echo-api posts core (`app/posts_router.py`, `app/tables.py`).

The Python handlers are embedded shallowly:
* database rows (`Post`, `PostLike` from `app/tables.py`) become Lean structures;
  the database becomes an explicit `DBState` record threaded through the
  operations.  `PostLike.id` / timestamps of like rows are not needed by any
  property and are omitted; a like row is identified by its (user, post) pair.
  Piccolo's `select()...first()` returns a plain dict (the handlers themselves
  rely on this: `post["author"]`, `updated_post["likes"]`, item assignment),
  so the `existing_like.remove()` / `post.remove()` calls in the like-toggle
  and delete handlers raise `AttributeError` — dicts have no `remove` — and
  the request fails with an unhandled-exception 500 at that statement, with
  no further mutation.  The embedding models those statements accordingly.
* external services (ElevenLabs speech-to-text / text-to-speech, Supabase
  storage) are nondeterministic inputs; the outcome of each call is a
  parameter of the operation, and the calls actually issued are recorded in an
  explicit effect trace where a claim needs them.
* Python truthiness (`or` / `not` on strings, ints and `None`) is modelled by
  the `pyOr*` helpers below.
* `float` durations are modelled by `Rat`; the only duration arithmetic the
  handlers perform is defaulting to `0.0`.
-/
import Mathlib

namespace EchoApi

/-! ## Python string primitives

`str.strip()` and `str.lower()` are implemented structurally on the
character list so that concrete inputs evaluate inside the kernel (the
whitespace set is the ASCII one of `Char.isWhitespace`). -/

/-- Python `s.strip()`: remove leading and trailing whitespace. -/
def pyStrip (s : String) : String :=
  String.mk
    (((s.toList.dropWhile Char.isWhitespace).reverse.dropWhile
        Char.isWhitespace).reverse)

/-- Python `s.lower()`. -/
def pyLower (s : String) : String :=
  String.mk (s.toList.map Char.toLower)

/-! ## Python truthiness helpers -/

/-- Python `x or d` for an optional string (`None` and `""` are falsy). -/
def pyOrStr (x : Option String) (d : String) : String :=
  match x with
  | some s => if s == "" then d else s
  | none => d

/-- Python `x or d` for an integer (`0` is falsy). -/
def pyOrInt (x d : Int) : Int :=
  if x == 0 then d else x

/-- Python `x or d` for an optional rational (`None` and `0.0` are falsy). -/
def pyOrRat (x : Option Rat) (d : Rat) : Rat :=
  match x with
  | some r => if r == 0 then d else r
  | none => d

/-! ## Data model (`app/tables.py`) -/

/-- A row of the `posts` table (`Post` in `app/tables.py`).  `likes` and
`listen_count` are `Int` because the SQL column is a signed integer and the
handlers update it with SQL-side arithmetic (`Post.likes - 1`). -/
structure PostRow where
  id : Nat
  text_content : Option String
  voice_file_path : Option String
  duration : Option Rat
  voice_style : Option String
  likes : Int
  listen_count : Int
  tags : List String
  author : Nat
  created_at : Nat
  deriving DecidableEq, Repr

/-- A row of the `post_likes` table (`PostLike` in `app/tables.py`),
identified by its (user, post) pair. -/
structure LikeRow where
  user : Nat
  post : Nat
  deriving DecidableEq, Repr

/-- The relational store: the `posts` and `post_likes` tables, plus the
`Serial` counter supplying the next post id. -/
structure DBState where
  posts : List PostRow
  likes : List LikeRow
  nextPostId : Nat
  deriving DecidableEq, Repr

/-- A row of the `users` table, restricted to the fields the post handlers
read from `current_user`. -/
structure UserRow where
  id : Nat
  username : String
  display_name : Option String
  avatar : Option String
  deriving DecidableEq, Repr

/-- An HTTP error (`HTTPException(status_code=..., detail=...)`). -/
structure HTTPError where
  status : Nat
  detail : String
  deriving DecidableEq, Repr

deriving instance DecidableEq for Except

/-- The author fields merged into a post dict before formatting
(`post_data["username"] = ...` etc.); `username` is optional because
`format_post_response` reads it with `post.get("username", "unknown")`. -/
structure AuthorView where
  username : Option String
  display_name : Option String
  avatar : Option String
  deriving DecidableEq, Repr

/-- The dict built by `format_post_response`.  `id` is kept as the numeric id
(the handler stringifies it), `timestamp` is the same value as `created_at`
and is not duplicated. -/
structure FormattedPost where
  id : Nat
  username : String
  display_name : String
  avatar : String
  audio_url : String
  duration : Rat
  voice_style : String
  likes : Int
  is_liked : Bool
  tags : List String
  content : String
  created_at : Nat
  listen_count : Int
  deriving DecidableEq, Repr

/-! ## `format_post_response` (posts_router.py lines 49-92) -/

/-- `format_post_response(post, current_user_id)`.  `rand` is the value drawn
by `random.randint(1, 100)` for the `listen_count` fallback; the JSON-string
defensive re-parse of `tags` is the identity here because `tags` is already a
list in the model. -/
def format_post_response (post : PostRow) (author : AuthorView) (rand : Nat) :
    FormattedPost :=
  let username := match author.username with
    | some s => s
    | none => "unknown"
  { id := post.id
    username := username
    display_name := pyOrStr author.display_name username
    avatar := pyOrStr author.avatar
      ("https://api.dicebear.com/7.x/avataaars/svg?seed=" ++ username)
    audio_url := pyOrStr post.voice_file_path ""
    duration := pyOrRat post.duration 0
    voice_style := pyOrStr post.voice_style "natural"
    likes := pyOrInt post.likes 0
    is_liked := false
    tags := post.tags
    content := pyOrStr post.text_content ""
    created_at := post.created_at
    listen_count := pyOrInt post.listen_count (Int.ofNat rand) }

/-! ## Upload validation (posts_router.py lines 212-218, 366-375) -/

/-- The metadata of an uploaded file the validation reads
(`UploadFile.filename` / `UploadFile.size`; `size` may be unknown). -/
structure Upload where
  filename : String
  size : Option Nat
  content_type : Option String
  deriving DecidableEq, Repr

/-- `SUPPORTED_AUDIO_FORMATS` (posts_router.py line 34). -/
def SUPPORTED_AUDIO_FORMATS : List String :=
  [".mp3", ".wav", ".m4a", ".ogg", ".webm", ".mp4", ".mpeg", ".mpga", ".flac"]

/-- Index of the last dot usable as an extension separator, following
`os.path.splitext`: a dot only starts an extension if a non-dot character
precedes it (so `".bashrc"` has no extension).  Path separators are not
modelled; upload filenames are plain names. -/
def extDotIndex : List Char → Nat → Bool → Option Nat → Option Nat
  | [], _, _, acc => acc
  | c :: rest, i, seenNonDot, acc =>
      if c = '.' then
        extDotIndex rest (i + 1) seenNonDot (if seenNonDot then some i else acc)
      else
        extDotIndex rest (i + 1) true acc

/-- `os.path.splitext(name)[1]`: the extension of a filename, empty when
there is none. -/
def splitext_ext (name : String) : String :=
  match extDotIndex name.toList 0 false none with
  | none => ""
  | some i => String.mk (name.toList.drop i)

/-- `validate_audio_file` (posts_router.py lines 212-218): a missing/empty
filename is rejected, otherwise the lower-cased extension must be in
`SUPPORTED_AUDIO_FORMATS`. -/
def validate_audio_file (file : Upload) : Bool :=
  if file.filename == "" then false
  else SUPPORTED_AUDIO_FORMATS.contains (splitext_ext (pyLower file.filename))

/-- The size guard `audio_file.size and audio_file.size > 10 * 1024 * 1024`
(posts_router.py lines 280, 374): an unknown (`None`) or zero size is falsy
and passes the check. -/
def sizeTooLarge (sz : Option Nat) : Bool :=
  match sz with
  | some n => n != 0 && n > 10 * 1024 * 1024
  | none => false

/-! ## Speech adapter (posts_router.py lines 95-197) -/

/-- Outcome of the HTTP call made by `transcribe_audio_to_text`: either a 200
response carrying the transcript text, or any failure (non-200 status,
connection error, raised exception). -/
inductive STTResponse where
  | ok (text : String)
  | err
  deriving DecidableEq, Repr

/-- `transcribe_audio_to_text` (posts_router.py lines 95-128): on a 200
response the `text` field is returned stripped; every failure path returns
`None`. -/
def transcribe_audio_to_text (resp : STTResponse) : Option String :=
  match resp with
  | .ok t => some (pyStrip t)
  | .err => none

/-- Outcome of the synthesis-and-upload pipeline inside
`generate_voice_from_text`: on success the public URL of the uploaded blob
and the measured duration (already defaulted to `0.0` when unmeasurable, as
in `get_audio_duration(...) or 0.0`); `none` for a non-200 synthesis
response or a raised exception (including upload failure, which the
surrounding `try` catches). -/
abbrev SynthOutcome := Option (String × Rat)

/-- `generate_voice_from_text` (posts_router.py lines 131-197).  The
`username` argument only selects the external voice identity (the hardcoded
"nat" special case) and does not affect the shape of the result. -/
def generate_voice_from_text (text : String) (_username : String)
    (outcome : SynthOutcome) : Option String × Option Rat :=
  if text == "" || pyStrip text == "" then (none, none)
  else
    match outcome with
    | some (url, duration) => (some url, some duration)
    | none => (none, none)

/-! ## Effects

External calls and temporary-file events, recorded in the order the handler
performs them. -/

inductive Effect where
  /-- `tempfile.NamedTemporaryFile(delete=False, ...)` -/
  | createTemp
  /-- the speech-to-text HTTP call -/
  | sttCall
  /-- the blob-storage upload of the original recording -/
  | blobUpload
  /-- `os.unlink(temp_file_path)` in the `finally` block; `ok = false` when
  the unlink itself raises (the exception is caught and logged) -/
  | unlinkTemp (ok : Bool)
  deriving DecidableEq, Repr

def isCreateTemp : Effect → Bool
  | .createTemp => true
  | _ => false

def isUnlinkTemp : Effect → Bool
  | .unlinkTemp _ => true
  | _ => false

/-- The nondeterministic environment of one recording request: outcomes of
the external calls, the random draws, the clock, whether saving the upload
into the just-created temp file (`await audio_file.read()` /
`temp_file.write(content)` inside the `with` block) succeeds, and whether
the final cleanup `os.unlink` raises. -/
structure RecEnv where
  stt : STTResponse
  measuredDuration : Option Rat
  uploadResult : Option String
  tags : List String
  rand : Nat
  now : Nat
  saveOk : Bool
  cleanupFails : Bool
  deriving DecidableEq, Repr

/-! ## `transcribe_audio_only` (posts_router.py lines 265-314) -/

/-- `transcribe_audio_only`: validation, temp-file save, transcription, the
empty-transcript checks, and the `finally` cleanup.  Returns the result and
the effect trace.  If reading/writing the upload into the just-created temp
file raises, `temp_file_path` is still `None`: the generic handler returns
the 500 and the `finally` guard skips the unlink, so the created temp file
is never released. -/
def transcribe_audio_only (file : Upload) (env : RecEnv) :
    Except HTTPError String × List Effect :=
  if !validate_audio_file file then
    (.error ⟨400, "Unsupported audio format"⟩, [])
  else if sizeTooLarge file.size then
    (.error ⟨400, "Audio file too large. Maximum size is 10MB"⟩, [])
  else if !env.saveOk then
    (.error ⟨500, "Failed to process recording"⟩, [.createTemp])
  else
    let res : Except HTTPError String :=
      match transcribe_audio_to_text env.stt with
      | none => .error ⟨500, "Failed to transcribe audio. Please try again."⟩
      | some t =>
          -- `if not transcribed_text:` — `None` and `""` both take the 500
          if t == "" then
            .error ⟨500, "Failed to transcribe audio. Please try again."⟩
          -- `if not transcribed_text.strip():`
          else if pyStrip t == "" then
            .error ⟨400, "No speech detected in the audio file"⟩
          else .ok (pyStrip t)
    (res, [.createTemp, .sttCall, .unlinkTemp (!env.cleanupFails)])

/-! ## `create_post_from_recording` (posts_router.py lines 359-453) -/

/-- `post_data["username"] = current_user["username"]` etc. (lines 431-434):
the author fields attached to a freshly created post before formatting. -/
def authorViewOf (u : UserRow) : AuthorView :=
  ⟨some u.username, some (pyOrStr u.display_name u.username), u.avatar⟩

/-- `create_post_from_recording`: validation, temp-file save, duration
measurement, transcription with the empty-transcript checks, best-effort
upload of the original recording, post persistence, and the `finally`
cleanup.  The `original_recording_url` field of the response equals the
persisted `voice_file_path` and is not duplicated in the result.  As in
`transcribe_audio_only`, a failure while saving the upload into the
just-created temp file leaves `temp_file_path = None`, so the `finally`
guard skips the unlink and the temp file is never released. -/
def create_post_from_recording (file : Upload) (u : UserRow) (env : RecEnv)
    (s : DBState) : Except HTTPError FormattedPost × DBState × List Effect :=
  if !validate_audio_file file then
    (.error ⟨400, "Unsupported audio format"⟩, s, [])
  else if sizeTooLarge file.size then
    (.error ⟨400, "Audio file too large. Maximum size is 10MB"⟩, s, [])
  else if !env.saveOk then
    (.error ⟨500, "Failed to process recording"⟩, s, [Effect.createTemp])
  else
    let fin := [Effect.unlinkTemp (!env.cleanupFails)]
    -- `duration = get_audio_duration(temp_file_path) or 0.0`
    let duration := pyOrRat env.measuredDuration 0
    match transcribe_audio_to_text env.stt with
    | none =>
        (.error ⟨500, "Failed to transcribe audio. Please try again."⟩, s,
          [Effect.createTemp, Effect.sttCall] ++ fin)
    | some t =>
        if t == "" then
          (.error ⟨500, "Failed to transcribe audio. Please try again."⟩, s,
            [Effect.createTemp, Effect.sttCall] ++ fin)
        else if pyStrip t == "" then
          (.error ⟨400, "No speech detected in the audio file"⟩, s,
            [Effect.createTemp, Effect.sttCall] ++ fin)
        else
          -- upload of the original recording; an exception is caught and
          -- leaves `original_audio_url = None`
          let url := env.uploadResult
          let row : PostRow :=
            { id := s.nextPostId
              text_content := some (pyStrip t)
              voice_file_path := url
              duration := some duration
              voice_style := some "original"
              likes := 0
              listen_count := 0
              tags := env.tags
              author := u.id
              created_at := env.now }
          let s' : DBState :=
            { s with posts := s.posts ++ [row], nextPostId := s.nextPostId + 1 }
          (.ok (format_post_response row (authorViewOf u) env.rand), s',
            [Effect.createTemp, Effect.sttCall, Effect.blobUpload] ++ fin)

/-! ## `create_post` (posts_router.py lines 317-356) -/

/-- The nondeterministic environment of one text-post request. -/
structure TextEnv where
  synth : SynthOutcome
  tags : List String
  rand : Nat
  now : Nat
  deriving Repr

/-- `create_post`: the trimmed-content validation, voice synthesis (failure
is non-fatal), and post persistence. -/
def create_post (content : String) (voice_style : String) (u : UserRow)
    (env : TextEnv) (s : DBState) :
    Except HTTPError FormattedPost × DBState :=
  -- `if not content or not content.strip():`
  if content == "" || pyStrip content == "" then
    (.error ⟨400, "Text content is required"⟩, s)
  else
    let (voice_file_url, duration) :=
      generate_voice_from_text content u.username env.synth
    let row : PostRow :=
      { id := s.nextPostId
        text_content := some (pyStrip content)
        voice_file_path := voice_file_url
        -- `duration=duration or 0.0`
        duration := some (pyOrRat duration 0)
        voice_style := some voice_style
        likes := 0
        listen_count := 0
        tags := env.tags
        author := u.id
        created_at := env.now }
    let s' : DBState :=
      { s with posts := s.posts ++ [row], nextPostId := s.nextPostId + 1 }
    (.ok (format_post_response row (authorViewOf u) env.rand), s')

/-! ## Engagement ledger (posts_router.py lines 563-628) -/

/-- `Post.select().where(Post.id == post_id).first()`. -/
def findPost (s : DBState) (post_id : Nat) : Option PostRow :=
  s.posts.find? (fun p => p.id == post_id)

/-- `PostLike.select().where((PostLike.user == user_id) & (PostLike.post ==
post_id)).first()`. -/
def findLike (s : DBState) (user_id post_id : Nat) : Option LikeRow :=
  s.likes.find? (fun l => l.user == user_id && l.post == post_id)

/-- `Post.update({Post.likes: Post.likes + d}).where(Post.id == post_id)`:
a SQL-side atomic read-modify-write of the counter. -/
def bumpLikes (posts : List PostRow) (post_id : Nat) (d : Int) : List PostRow :=
  posts.map (fun p => if p.id == post_id then { p with likes := p.likes + d } else p)

/-- The number of `PostLike` rows referencing a post. -/
def likeCount (s : DBState) (post_id : Nat) : Nat :=
  (s.likes.filter (fun l => l.post == post_id)).length

/-- The response of the like toggle (`schemas.LikeResponse`). -/
structure LikeResponse where
  message : String
  is_liked : Bool
  total_likes : Int
  deriving DecidableEq, Repr

/-- `toggle_like_post` (posts_router.py lines 563-593), as one sequential
(uninterrupted) execution: existence checks, row mutation, counter mutation,
and the read-back of the updated counter.  On the unlike path the handler
evaluates `existing_like.remove` on the dict returned by
`PostLike.select()...first()`; the `AttributeError` escapes the handler as an
unhandled-exception 500 before the row delete and the counter decrement (the
decrement statement at line 578 is unreachable), so the store is untouched. -/
def toggle_like_post (s : DBState) (user_id post_id : Nat) :
    Except HTTPError LikeResponse × DBState :=
  match findPost s post_id with
  | none => (.error ⟨404, "Post not found"⟩, s)
  | some _ =>
    match findLike s user_id post_id with
    | some _ =>
        (.error ⟨500, "Internal Server Error"⟩, s)
    | none =>
        let s' : DBState :=
          { s with likes := ⟨user_id, post_id⟩ :: s.likes,
                   posts := bumpLikes s.posts post_id 1 }
        let total := match findPost s' post_id with
          | some p => p.likes
          | none => 0
        (.ok ⟨"Post liked", true, total⟩, s')

/-- `increment_listen_count` (posts_router.py lines 596-604). -/
def increment_listen_count (s : DBState) (post_id : Nat) :
    Except HTTPError String × DBState :=
  match findPost s post_id with
  | none => (.error ⟨404, "Post not found"⟩, s)
  | some _ =>
      (.ok "Listen count updated",
        { s with posts := s.posts.map (fun p =>
            if p.id == post_id then { p with listen_count := p.listen_count + 1 }
            else p) })

/-- `N` successive calls of `increment_listen_count` on the same post. -/
def listenN : Nat → DBState → Nat → DBState
  | 0, s, _ => s
  | n + 1, s, post_id => listenN n (increment_listen_count s post_id).2 post_id

/-- `delete_post` (posts_router.py lines 607-628): ownership check, cascade
delete of the post's like rows (a table-level `PostLike.delete()`, which
works), best-effort blob deletion (external, no database effect), then
`await post.remove()` — but `post` is the dict returned by
`Post.select()...first()`, so evaluating `post.remove` raises
`AttributeError`: the request fails with an unhandled-exception 500 and the
post row (with its now-stale likes counter) is never removed. -/
def delete_post (s : DBState) (user_id post_id : Nat) :
    Except HTTPError String × DBState :=
  match findPost s post_id with
  | none => (.error ⟨404, "Post not found"⟩, s)
  | some post =>
      if post.author != user_id then
        (.error ⟨403, "Not authorized to delete this post"⟩, s)
      else
        (.error ⟨500, "Internal Server Error"⟩,
          { s with likes := s.likes.filter (fun l => !(l.post == post_id)) })

/-! ## `get_my_posts` (posts_router.py lines 504-530) -/

/-- Descending insertion by `created_at` (the `order_by(Post.created_at,
ascending=False)` clause). -/
def insertByCreatedDesc (p : PostRow) : List PostRow → List PostRow
  | [] => [p]
  | q :: qs =>
      if q.created_at ≤ p.created_at then p :: q :: qs
      else q :: insertByCreatedDesc p qs

def sortByCreatedDesc (l : List PostRow) : List PostRow :=
  l.foldr insertByCreatedDesc []

/-- The formatting loop of `get_my_posts`: each post is formatted with the
current user's author fields, a fresh `randint` draw (`rng i` for the `i`-th
post), and `is_liked` overwritten with `True`. -/
def formatMyPage (u : UserRow) (rng : Nat → Nat) : Nat → List PostRow → List FormattedPost
  | _, [] => []
  | i, p :: ps =>
      { format_post_response p (authorViewOf u) (rng i) with is_liked := true }
        :: formatMyPage u rng (i + 1) ps

/-- `get_my_posts`: the page of the current user's own posts (the `total`
count of the response is the page-independent row count and is omitted). -/
def get_my_posts (s : DBState) (u : UserRow) (skip limit : Nat)
    (rng : Nat → Nat) : List FormattedPost :=
  let page :=
    ((sortByCreatedDesc (s.posts.filter (fun p => p.author == u.id))).drop skip).take limit
  formatMyPage u rng 0 page

/-! ## Fine-grained interleaving model of `toggle_like_post`

Each `await` in the handler is a suspension point, so two concurrent toggle
requests interleave at statement granularity.  A task records its program
counter and what its existence checks observed. -/

/-- One in-flight `toggle_like_post` request. -/
structure ToggleTask where
  user : Nat
  post : Nat
  /-- 0 = about to check the post, 1 = about to check the existing like,
  2 = about to mutate the like row, 3 = about to update the counter,
  4 = finished, 5 = crashed with the `AttributeError` 500. -/
  pc : Nat
  postOk : Bool
  found : Bool
  deriving DecidableEq, Repr

/-- Run one statement of a toggle request against the shared store.  At
pc 2 a task that found an existing like evaluates `existing_like.remove` on
the select() dict and crashes with `AttributeError` (500) without mutating
anything; the counter decrement of the source is therefore unreachable, and
pc 3 is only ever reached on the insert path. -/
def toggleStep (t : ToggleTask) (s : DBState) : ToggleTask × DBState :=
  match t.pc with
  | 0 => ({ t with postOk := (findPost s t.post).isSome, pc := 1 }, s)
  | 1 =>
      if t.postOk then
        ({ t with found := (findLike s t.user t.post).isSome, pc := 2 }, s)
      else ({ t with pc := 4 }, s)
  | 2 =>
      if t.found then
        ({ t with pc := 5 }, s)
      else
        ({ t with pc := 3 }, { s with likes := ⟨t.user, t.post⟩ :: s.likes })
  | 3 =>
      ({ t with pc := 4 },
        { s with posts := bumpLikes s.posts t.post (if t.found then -1 else 1) })
  | _ => (t, s)

/-- Run two concurrent toggle requests under a schedule: `false` steps the
first task, `true` steps the second. -/
def runSched : List Bool → ToggleTask × ToggleTask × DBState → ToggleTask × ToggleTask × DBState
  | [], st => st
  | b :: rest, (ta, tb, s) =>
      if b then
        let (tb', s') := toggleStep tb s
        runSched rest (ta, tb', s')
      else
        let (ta', s') := toggleStep ta s
        runSched rest (ta', tb, s')

/-! ## The likes-counter invariant (spec section 3) -/

/-- The §3 invariant together with the id-freshness facts that make it
inductive: every post id and every like row's post reference is below the
`Serial` counter, and each post's cached `likes` counter equals the number
of `PostLike` rows referencing it. -/
def Inv (s : DBState) : Prop :=
  (∀ p ∈ s.posts, p.id < s.nextPostId) ∧
  (∀ l ∈ s.likes, l.post < s.nextPostId) ∧
  (∀ p ∈ s.posts, p.likes = (likeCount s p.id : Int))

instance (s : DBState) : Decidable (Inv s) := by
  unfold Inv; infer_instance

/-- Status of a handler result, for stating which HTTP error fired. -/
def errStatus {α : Type} : Except HTTPError α → Option Nat
  | .error e => some e.status
  | .ok _ => none

/-! ## Concrete example inputs used by counterexamples and witnesses -/

/-- A post with one like, its counter correctly at 1. -/
def exPostLiked : PostRow :=
  ⟨1, some "hi", none, none, some "natural", 1, 0, [], 7, 0⟩

/-- A store holding `exPostLiked` and the single like row (user 2, post 1);
the §3 invariant holds. -/
def exDBLiked : DBState := ⟨[exPostLiked], [⟨2, 1⟩], 2⟩

/-- A toggle request by user 2 on post 1, not yet started. -/
def exToggleTask : ToggleTask := ⟨2, 1, 0, false, false⟩

/-- Post 1 with no likes and its counter at 0. -/
def exPostUnliked : PostRow :=
  ⟨1, some "hi", none, none, some "natural", 0, 0, [], 7, 0⟩

/-- A store holding `exPostUnliked` and no like rows; the §3 invariant
holds. -/
def exDBUnliked : DBState := ⟨[exPostUnliked], [], 2⟩

/-- Interleaving of two toggle requests A and B on the same unliked post:
both run their two existence checks before either mutates, then A inserts
and increments, then B inserts and increments. -/
def exDoubleLikeSched : List Bool :=
  [false, false, true, true, false, false, true, true]

/-- Serial schedule: A runs to completion, then B. -/
def exSerialSched : List Bool :=
  [false, false, false, false, true, true, true, true]

def exUpload : Upload := ⟨"note.mp3", some 1000, some "audio/mpeg"⟩

def exUser : UserRow := ⟨7, "alice", none, none⟩

/-- A recording request whose transcription call returns HTTP 200 with an
empty transcript (the temp-file save succeeds, the cleanup does not fail). -/
def exRecEnvEmptyText : RecEnv :=
  ⟨.ok "", some 2, some "https://blob/x.mp3", ["music"], 7, 100, true, false⟩

/-- A recording request whose save into the just-created temp file fails. -/
def exRecEnvSaveFails : RecEnv :=
  ⟨.ok "hello there", some 2, some "https://blob/x.mp3", ["music"], 7, 100, false, false⟩

/-- A recording request on which every step succeeds. -/
def exRecEnvOk : RecEnv :=
  ⟨.ok "hello there", some 2, some "https://blob/x.mp3", ["music"], 7, 100, true, false⟩

def exDB : DBState := ⟨[], [], 1⟩

/-! ## Helper lemmas -/

theorem find?_map_upd (posts : List PostRow) (pid : Nat) (g : PostRow → PostRow)
    (hg : ∀ p, (g p).id = p.id) :
    (posts.map (fun p => if p.id == pid then g p else p)).find?
        (fun p => p.id == pid) =
      (posts.find? (fun p => p.id == pid)).map g := by
  induction posts with
  | nil => rfl
  | cons q rest ih =>
    cases hq : (q.id == pid) with
    | true =>
        simp only [List.map_cons, hq, if_true]
        rw [List.find?_cons_of_pos _ (by simp [hg, hq])]
        rw [show (q :: rest).find? (fun p => p.id == pid) = some q from
          List.find?_cons_of_pos _ hq]
        rfl
    | false =>
        simp only [List.map_cons, hq, if_false]
        rw [List.find?_cons_of_neg _ (by simp [hq])]
        rw [show (q :: rest).find? (fun p => p.id == pid) =
            rest.find? (fun p => p.id == pid) from
          List.find?_cons_of_neg _ (by simp [hq])]
        exact ih

theorem formatMyPage_all_liked (u : UserRow) (rng : Nat → Nat) (i : Nat)
    (l : List PostRow) :
    (formatMyPage u rng i l).all (fun fp => fp.is_liked) = true := by
  induction l generalizing i with
  | nil => rfl
  | cons p ps ih => simp [formatMyPage, ih]

/-! ## Claims -/

/-- C9: in `get_my_posts`, every post of the returned page has
`is_liked = true` unconditionally, and the result does not depend on the
`post_likes` relation at all. -/
theorem c9_my_posts_reported_liked_unconditionally (s : DBState) (u : UserRow)
    (skip limit : Nat) (rng : Nat → Nat) (L : List LikeRow) :
    (get_my_posts s u skip limit rng).all (fun fp => fp.is_liked) = true ∧
    get_my_posts { s with likes := L } u skip limit rng =
      get_my_posts s u skip limit rng := by
  exact ⟨formatMyPage_all_liked u rng 0 _, rfl⟩

/-- C10: `format_post_response` reports the stored listen counter exactly
when it is nonzero, substitutes the fresh `randint(1, 100)` draw when it is
zero (so the reported count is never 0), and two renderings of the same
stored post agree exactly when the stored counter is nonzero. -/
theorem c10_listen_count_random_fallback (post : PostRow) (author : AuthorView)
    (rand : Nat) (h1 : 1 ≤ rand) (h2 : rand ≤ 100) :
    (format_post_response post author rand).listen_count =
      (if post.listen_count = 0 then (rand : Int) else post.listen_count) ∧
    (format_post_response post author rand).listen_count ≠ 0 ∧
    ((format_post_response post author 1).listen_count =
        (format_post_response post author 2).listen_count ↔
      post.listen_count ≠ 0) := by
  unfold format_post_response pyOrInt
  by_cases h : post.listen_count = 0
  · simp only [h]; simp; omega
  · simp only [beq_iff_eq, h, if_false, if_neg h]; simp [h]

/-- C10 witness: a stored counter of 0 with the draw 7 reports 7. -/
theorem c10_witness :
    1 ≤ 7 ∧ 7 ≤ 100 ∧
      ((format_post_response ⟨1, none, none, none, none, 0, 0, [], 7, 0⟩
          ⟨some "alice", none, none⟩ 7).listen_count =
        (if (0 : Int) = 0 then ((7 : Nat) : Int) else (0 : Int)) ∧
      (format_post_response ⟨1, none, none, none, none, 0, 0, [], 7, 0⟩
          ⟨some "alice", none, none⟩ 7).listen_count ≠ 0 ∧
      ((format_post_response ⟨1, none, none, none, none, 0, 0, [], 7, 0⟩
            ⟨some "alice", none, none⟩ 1).listen_count =
          (format_post_response ⟨1, none, none, none, none, 0, 0, [], 7, 0⟩
            ⟨some "alice", none, none⟩ 2).listen_count ↔ (0 : Int) ≠ 0)) :=
  ⟨by decide, by decide,
    c10_listen_count_random_fallback ⟨1, none, none, none, none, 0, 0, [], 7, 0⟩
      ⟨some "alice", none, none⟩ 7 (by decide) (by decide)⟩

/-- C3 (the code contradicts the claim): a transcription call that succeeds
with empty text makes `create_post_from_recording` (and
`transcribe_audio_only`) fail with the 500 "Failed to transcribe audio"
server-fault, not the 400 "No speech detected" user-correctable error: the
`if not transcribed_text` guard conflates the `None` failure with the empty
string, so the 400 branch is unreachable.  No post is created. -/
theorem c3_empty_transcript_hits_500_not_400 :
    (create_post_from_recording exUpload exUser exRecEnvEmptyText exDB).1 =
      .error ⟨500, "Failed to transcribe audio. Please try again."⟩ ∧
    (create_post_from_recording exUpload exUser exRecEnvEmptyText exDB).2.1 = exDB ∧
    (transcribe_audio_only exUpload exRecEnvEmptyText).1 =
      .error ⟨500, "Failed to transcribe audio. Please try again."⟩ ∧
    (create_post_from_recording exUpload exUser { exRecEnvEmptyText with stt := .err }
        exDB).1 =
      .error ⟨500, "Failed to transcribe audio. Please try again."⟩ := by
  refine ⟨by decide, by decide, by decide, by decide⟩

/-- C2 (the code contradicts the claim): the existence check, the row
mutation and the counter mutation of `toggle_like_post` are separate awaited
statements with no transaction, so they are not indivisible with respect to
concurrent toggles on the same post.  Witness: from the invariant-satisfying
store where user 2 has not liked post 1, interleaving two toggles by user 2
so that both existence checks run before either mutation lets both take the
like path, ending with two `PostLike` rows for the single (user 2, post 1)
pair and counter 2 — an outcome no serial execution of the two toggles can
produce: serially the second toggle finds the first's row and crashes with
the `AttributeError` 500 at `existing_like.remove()`, ending at one row and
counter 1.  (That same crash-before-mutation is what keeps the counter equal
to the row count in both runs: the only reachable mutation path inserts one
row and increments once.) -/
theorem c2_toggle_like_not_atomic :
    Inv exDBUnliked ∧
    (runSched exDoubleLikeSched (exToggleTask, exToggleTask, exDBUnliked)).1.pc = 4 ∧
    (runSched exDoubleLikeSched (exToggleTask, exToggleTask, exDBUnliked)).2.1.pc = 4 ∧
    likeCount (runSched exDoubleLikeSched (exToggleTask, exToggleTask, exDBUnliked)).2.2 1 = 2 ∧
    (findPost (runSched exDoubleLikeSched (exToggleTask, exToggleTask, exDBUnliked)).2.2 1).map
      (fun p => p.likes) = some 2 ∧
    (runSched exSerialSched (exToggleTask, exToggleTask, exDBUnliked)).1.pc = 4 ∧
    (runSched exSerialSched (exToggleTask, exToggleTask, exDBUnliked)).2.1.pc = 5 ∧
    likeCount (runSched exSerialSched (exToggleTask, exToggleTask, exDBUnliked)).2.2 1 = 1 ∧
    (findPost (runSched exSerialSched (exToggleTask, exToggleTask, exDBUnliked)).2.2 1).map
      (fun p => p.likes) = some 1 := by
  refine ⟨by decide, rfl, rfl, rfl, rfl, rfl, rfl, rfl, rfl⟩

/-- C5: an upload with an unsupported extension or an oversized payload is
rejected with a 400 validation error before any external call or temporary
file: the store is untouched and the effect trace is empty. -/
theorem c5_invalid_upload_rejected_before_any_effect (file : Upload)
    (u : UserRow) (env : RecEnv) (s : DBState)
    (h : validate_audio_file file = false ∨ sizeTooLarge file.size = true) :
    errStatus (create_post_from_recording file u env s).1 = some 400 ∧
    (create_post_from_recording file u env s).2.1 = s ∧
    (create_post_from_recording file u env s).2.2 = [] := by
  unfold create_post_from_recording
  rcases h with h | h
  · simp [h, errStatus]
  · by_cases hv : validate_audio_file file
    · simp [hv, h, errStatus]
    · simp [hv, errStatus]

/-- C5 witness: a 3-byte `.txt` upload is rejected with effects untouched. -/
theorem c5_witness :
    (validate_audio_file ⟨"note.txt", some 3, none⟩ = false ∨
      sizeTooLarge (Upload.size ⟨"note.txt", some 3, none⟩) = true) ∧
    errStatus (create_post_from_recording ⟨"note.txt", some 3, none⟩ exUser
        exRecEnvEmptyText exDB).1 = some 400 ∧
    (create_post_from_recording ⟨"note.txt", some 3, none⟩ exUser
        exRecEnvEmptyText exDB).2.1 = exDB ∧
    (create_post_from_recording ⟨"note.txt", some 3, none⟩ exUser
        exRecEnvEmptyText exDB).2.2 = [] :=
  ⟨by decide,
    c5_invalid_upload_rejected_before_any_effect ⟨"note.txt", some 3, none⟩
      exUser exRecEnvEmptyText exDB (by decide)⟩

/-- C6 counterexample: the claim "released exactly once on every exit path
— success, transcription failure, upload failure, or any other error" fails
on the temp-save failure path: if `audio_file.read()`/`temp_file.write()`
raises inside the `with` block, the temp file has been created but
`temp_file_path` is still `None`, so the `finally` skips the unlink — one
creation, zero releases — in both handlers, which return the generic 500. -/
theorem c6_counterexample_save_failure :
    ((create_post_from_recording exUpload exUser exRecEnvSaveFails exDB).2.2.filter
      isCreateTemp).length = 1 ∧
    ((create_post_from_recording exUpload exUser exRecEnvSaveFails exDB).2.2.filter
      isUnlinkTemp).length = 0 ∧
    (create_post_from_recording exUpload exUser exRecEnvSaveFails exDB).1 =
      .error ⟨500, "Failed to process recording"⟩ ∧
    ((transcribe_audio_only exUpload exRecEnvSaveFails).2.filter isCreateTemp).length = 1 ∧
    ((transcribe_audio_only exUpload exRecEnvSaveFails).2.filter isUnlinkTemp).length = 0 ∧
    (transcribe_audio_only exUpload exRecEnvSaveFails).1 =
      .error ⟨500, "Failed to process recording"⟩ := by
  refine ⟨by decide, by decide, by decide, by decide, by decide, by decide⟩

/-- C6 (amended): in `create_post_from_recording` and `transcribe_audio_only`,
on every path on which the upload is successfully saved into the temporary
file (`temp_file_path` assigned), the file is released exactly as many times
as it is created (at most once, and exactly once on every such path —
success, transcription failure, upload failure, or any other error), and a
failing cleanup never changes the operation's result or the resulting
store.  Only a failure of the save itself leaves the created file
unreleased (`c6_counterexample_save_failure`). -/
theorem c6_temp_file_released_when_saved (file : Upload) (u : UserRow)
    (env : RecEnv) (s : DBState) (hsave : env.saveOk = true) :
    ((create_post_from_recording file u env s).2.2.filter isUnlinkTemp).length =
      ((create_post_from_recording file u env s).2.2.filter isCreateTemp).length ∧
    ((create_post_from_recording file u env s).2.2.filter isCreateTemp).length ≤ 1 ∧
    (create_post_from_recording file u { env with cleanupFails := true } s).1 =
      (create_post_from_recording file u { env with cleanupFails := false } s).1 ∧
    (create_post_from_recording file u { env with cleanupFails := true } s).2.1 =
      (create_post_from_recording file u { env with cleanupFails := false } s).2.1 ∧
    ((transcribe_audio_only file env).2.filter isUnlinkTemp).length =
      ((transcribe_audio_only file env).2.filter isCreateTemp).length ∧
    ((transcribe_audio_only file env).2.filter isCreateTemp).length ≤ 1 ∧
    (transcribe_audio_only file { env with cleanupFails := true }).1 =
      (transcribe_audio_only file { env with cleanupFails := false }).1 := by
  unfold create_post_from_recording transcribe_audio_only
  by_cases hv : validate_audio_file file <;>
    by_cases hs : sizeTooLarge file.size <;>
      cases ht : transcribe_audio_to_text env.stt
  all_goals simp_all [isUnlinkTemp, isCreateTemp]
  all_goals split_ifs <;> simp [isUnlinkTemp, isCreateTemp]

/-- C6 witness: a fully successful run releases the one temp file once in
both handlers. -/
theorem c6_witness :
    RecEnv.saveOk exRecEnvOk = true ∧
    ((create_post_from_recording exUpload exUser exRecEnvOk exDB).2.2.filter
        isUnlinkTemp).length =
      ((create_post_from_recording exUpload exUser exRecEnvOk exDB).2.2.filter
        isCreateTemp).length ∧
    ((create_post_from_recording exUpload exUser exRecEnvOk exDB).2.2.filter
      isCreateTemp).length ≤ 1 ∧
    ((transcribe_audio_only exUpload exRecEnvOk).2.filter isUnlinkTemp).length =
      ((transcribe_audio_only exUpload exRecEnvOk).2.filter isCreateTemp).length :=
  ⟨by decide,
    (c6_temp_file_released_when_saved exUpload exUser exRecEnvOk exDB (by decide)).1,
    (c6_temp_file_released_when_saved exUpload exUser exRecEnvOk exDB (by decide)).2.1,
    (c6_temp_file_released_when_saved exUpload exUser exRecEnvOk exDB (by decide)).2.2.2.2.1⟩

/-- After `increment_listen_count` succeeds, looking the post up again finds
it with its listen counter one higher. -/
theorem findPost_increment (s : DBState) (pid : Nat) :
    findPost (increment_listen_count s pid).2 pid =
      (findPost s pid).map (fun p => { p with listen_count := p.listen_count + 1 }) := by
  unfold increment_listen_count
  cases hf : findPost s pid with
  | none => simp [hf]
  | some p0 =>
      simp only [hf]
      unfold findPost at *
      exact (find?_map_upd s.posts pid
        (fun p => { p with listen_count := p.listen_count + 1 }) (fun p => rfl)).trans
        (by rw [hf])

/-- A missing post makes `increment_listen_count` a no-op 404. -/
theorem increment_listen_count_none (s : DBState) (pid : Nat)
    (hf : findPost s pid = none) :
    increment_listen_count s pid = (.error ⟨404, "Post not found"⟩, s) := by
  unfold increment_listen_count
  simp [hf]

/-- C8: `IncrementListenCount` is monotonic — after `N` calls the stored
listen counter of an existing post equals its prior value plus `N` (stated
as an equation on the looked-up row, covering any `N ≥ 0` and independent of
any caller identity, which the handler never reads) — a call succeeds
exactly when the post exists, and a call on a missing post fails with the
404 error and leaves the whole store unchanged. -/
theorem c8_listen_count_monotonic (s : DBState) (pid N : Nat) :
    ((findPost (listenN N s pid) pid).map (fun p => p.listen_count) =
      (findPost s pid).map (fun p => p.listen_count + (N : Int))) ∧
    ((findPost s pid).isSome = true →
      (increment_listen_count s pid).1 = .ok "Listen count updated") ∧
    (findPost s pid = none →
      increment_listen_count s pid = (.error ⟨404, "Post not found"⟩, s) ∧
      listenN N s pid = s) := by
  refine ⟨?_, ?_, ?_⟩
  · induction N generalizing s with
    | zero => simp [listenN]
    | succ n ih =>
        rw [listenN, ih, findPost_increment]
        cases hf : findPost s pid with
        | none => rfl
        | some p0 =>
            simp only [Option.map_some']
            congr 1
            push_cast
            ring
  · intro h
    unfold increment_listen_count
    cases hf : findPost s pid with
    | none => rw [hf] at h; simp at h
    | some p0 => simp [hf]
  · intro hf
    refine ⟨increment_listen_count_none s pid hf, ?_⟩
    induction N with
    | zero => rfl
    | succ n ih =>
        rw [listenN, increment_listen_count_none s pid hf]
        exact ih

/-- C8 witness: three listens on an existing post raise its counter from 5
to 8; the missing-post id 9 is a no-op 404. -/
theorem c8_witness :
    ((findPost (listenN 3 ⟨[⟨1, none, none, none, none, 0, 5, [], 7, 0⟩], [], 2⟩ 1) 1).map
        (fun p => p.listen_count) =
      (findPost ⟨[⟨1, none, none, none, none, 0, 5, [], 7, 0⟩], [], 2⟩ 1).map
        (fun p => p.listen_count + ((3 : Nat) : Int))) ∧
    (findPost ⟨[⟨1, none, none, none, none, 0, 5, [], 7, 0⟩], [], 2⟩ 9 = none) ∧
    increment_listen_count ⟨[⟨1, none, none, none, none, 0, 5, [], 7, 0⟩], [], 2⟩ 9 =
      (.error ⟨404, "Post not found"⟩, ⟨[⟨1, none, none, none, none, 0, 5, [], 7, 0⟩], [], 2⟩) ∧
    listenN 3 ⟨[⟨1, none, none, none, none, 0, 5, [], 7, 0⟩], [], 2⟩ 9 =
      ⟨[⟨1, none, none, none, none, 0, 5, [], 7, 0⟩], [], 2⟩ :=
  ⟨(c8_listen_count_monotonic ⟨[⟨1, none, none, none, none, 0, 5, [], 7, 0⟩], [], 2⟩ 1 3).1,
    by decide,
    ((c8_listen_count_monotonic ⟨[⟨1, none, none, none, none, 0, 5, [], 7, 0⟩], [], 2⟩ 9 3).2.2
      (by decide)).1,
    ((c8_listen_count_monotonic ⟨[⟨1, none, none, none, none, 0, 5, [], 7, 0⟩], [], 2⟩ 9 3).2.2
      (by decide)).2⟩

/-- Unfolding `toggle_like_post` on the like path: no existing like row, so
a row is inserted and the counter incremented; the read-back returns the
incremented counter. -/
theorem toggle_like_insert_eq (s : DBState) (u pid : Nat) (p0 : PostRow)
    (hp : findPost s pid = some p0) (hn : findLike s u pid = none) :
    toggle_like_post s u pid =
      (.ok ⟨"Post liked", true, p0.likes + 1⟩,
        { s with likes := ⟨u, pid⟩ :: s.likes, posts := bumpLikes s.posts pid 1 }) := by
  have hb : findPost
      { s with likes := ⟨u, pid⟩ :: s.likes, posts := bumpLikes s.posts pid 1 }
      pid = some { p0 with likes := p0.likes + 1 } := by
    unfold findPost bumpLikes at *
    rw [find?_map_upd s.posts pid (fun p => { p with likes := p.likes + 1 })
      (fun p => rfl), hp]
    rfl
  unfold toggle_like_post
  simp only [hp, hn, hb]

/-- Unfolding `toggle_like_post` on the unlike path: the handler evaluates
`existing_like.remove` on the select() dict and dies with the
`AttributeError` 500 before mutating anything. -/
theorem toggle_like_found_eq (s : DBState) (u pid : Nat) (p0 : PostRow)
    (l0 : LikeRow) (hp : findPost s pid = some p0)
    (hf : findLike s u pid = some l0) :
    toggle_like_post s u pid = (.error ⟨500, "Internal Server Error"⟩, s) := by
  unfold toggle_like_post
  simp only [hp, hf]

/-- C7 (the code contradicts the claim): from the post unliked by user 2
with likes counter 0, the first toggle does return liked with total 1 read
back after the mutation, but the second toggle crashes with the
`AttributeError` 500 at `existing_like.remove()` instead of unliking: the
like row and the counter value 1 survive, so the final state is liked with
counter 1, not unliked with counter 0 as the claim requires. -/
theorem c7_second_toggle_crashes :
    (toggle_like_post exDBUnliked 2 1).1 = .ok ⟨"Post liked", true, 1⟩ ∧
    toggle_like_post (toggle_like_post exDBUnliked 2 1).2 2 1 =
      (.error ⟨500, "Internal Server Error"⟩, (toggle_like_post exDBUnliked 2 1).2) ∧
    findLike (toggle_like_post (toggle_like_post exDBUnliked 2 1).2 2 1).2 2 1 =
      some ⟨2, 1⟩ ∧
    (findPost (toggle_like_post (toggle_like_post exDBUnliked 2 1).2 2 1).2 1).map
      (fun p => p.likes) = some 1 := by
  refine ⟨by decide, by decide, by decide, by decide⟩

/-- The guard `not content or not content.strip()` of `create_post` is
equivalent to the stripped content being empty. -/
theorem create_post_guard_eq (content : String) :
    (content == "" || pyStrip content == "") = (pyStrip content == "") := by
  cases hc : content == "" with
  | true =>
      have h : content = "" := by simpa using hc
      subst h
      decide
  | false => simp [hc]

/-- C4: `create_post` fails with the 400 validation error exactly when the
content is empty after stripping, and the store is then untouched; for
non-empty stripped content a post row is always persisted, and when
synthesis fails the persisted row carries the stripped text with a null
audio URL and duration 0. -/
theorem c4_text_post_synth_failure_nonfatal (content voice_style : String)
    (u : UserRow) (env : TextEnv) (s : DBState) :
    (errStatus (create_post content voice_style u env s).1 = some 400 ↔
      pyStrip content = "") ∧
    (pyStrip content = "" →
      create_post content voice_style u env s =
        (.error ⟨400, "Text content is required"⟩, s)) ∧
    (pyStrip content ≠ "" →
      (create_post content voice_style u env s).2.posts.length =
        s.posts.length + 1) ∧
    (pyStrip content ≠ "" → env.synth = none →
      (create_post content voice_style u env s).2.posts =
        s.posts ++ [⟨s.nextPostId, some (pyStrip content), none, some 0,
          some voice_style, 0, 0, env.tags, u.id, env.now⟩]) := by
  have hcond := create_post_guard_eq content
  unfold create_post
  by_cases h : pyStrip content = "" <;>
    rcases hsyn : env.synth with _ | ⟨url, dur⟩ <;>
      simp_all [errStatus, generate_voice_from_text, pyOrRat, create_post_guard_eq]

/-- C4 witness: content `" hello "` with failing synthesis persists the
stripped text with null audio and duration 0. -/
theorem c4_witness :
    pyStrip " hello " ≠ "" ∧ TextEnv.synth ⟨none, ["music"], 7, 3⟩ = none ∧
    (create_post " hello " "natural" exUser ⟨none, ["music"], 7, 3⟩ exDB).2.posts =
      exDB.posts ++ [⟨exDB.nextPostId, some (pyStrip " hello "), none, some 0,
        some "natural", 0, 0, ["music"], exUser.id, 3⟩] :=
  ⟨by decide, rfl,
    (c4_text_post_synth_failure_nonfatal " hello " "natural" exUser
      ⟨none, ["music"], 7, 3⟩ exDB).2.2.2 (by decide) rfl⟩

/-! ## Lemmas for the §3 invariant -/

/-- No like row references a post id at or above the `Serial` counter. -/
theorem filter_post_fresh_nil (L : List LikeRow) (n : Nat)
    (h : ∀ l ∈ L, l.post < n) :
    (L.filter (fun l => l.post == n)).length = 0 := by
  rw [List.length_eq_zero, List.filter_eq_nil_iff]
  intro l hl
  have := h l hl
  simp
  omega

/-- Appending a fresh post whose counter starts at 0 (what both creation
operations do on success) preserves the invariant. -/
theorem inv_append_fresh (s : DBState) (row : PostRow) (h : Inv s)
    (hid : row.id = s.nextPostId) (hlikes : row.likes = 0) :
    Inv { s with posts := s.posts ++ [row], nextPostId := s.nextPostId + 1 } := by
  obtain ⟨h1, h2, h3⟩ := h
  refine ⟨?_, ?_, ?_⟩
  · intro p hp
    rcases List.mem_append.mp hp with hp | hp
    · exact Nat.lt_succ_of_lt (h1 p hp)
    · rcases List.mem_singleton.mp hp with rfl
      rw [hid]
      exact Nat.lt_succ_self _
  · intro l hl
    exact Nat.lt_succ_of_lt (h2 l hl)
  · intro p hp
    rcases List.mem_append.mp hp with hp | hp
    · exact h3 p hp
    · rcases List.mem_singleton.mp hp with rfl
      rw [hlikes, hid]
      show (0 : Int) =
        ((s.likes.filter (fun l => l.post == s.nextPostId)).length : Int)
      rw [filter_post_fresh_nil s.likes s.nextPostId h2]
      rfl

/-! ## Unfolding equations for `create_post` -/

theorem create_post_err_eq (content voice_style : String) (u : UserRow)
    (env : TextEnv) (s : DBState)
    (hc : (content == "" || pyStrip content == "") = true) :
    create_post content voice_style u env s =
      (.error ⟨400, "Text content is required"⟩, s) := by
  unfold create_post
  rw [if_pos hc]

theorem create_post_ok_eq (content voice_style : String) (u : UserRow)
    (env : TextEnv) (s : DBState)
    (hc : (content == "" || pyStrip content == "") = false)
    (url : Option String) (dur : Option Rat)
    (hg : generate_voice_from_text content u.username env.synth = (url, dur)) :
    create_post content voice_style u env s =
      (.ok (format_post_response
          ⟨s.nextPostId, some (pyStrip content), url, some (pyOrRat dur 0),
            some voice_style, 0, 0, env.tags, u.id, env.now⟩
          (authorViewOf u) env.rand),
        { s with
            posts := s.posts ++
              [⟨s.nextPostId, some (pyStrip content), url, some (pyOrRat dur 0),
                some voice_style, 0, 0, env.tags, u.id, env.now⟩],
            nextPostId := s.nextPostId + 1 }) := by
  unfold create_post
  rw [if_neg (by simp [hc]), hg]

/-! ## Preservation of the §3 invariant by the creation and toggle
operations — and its violation by `delete_post` -/

theorem inv_create_post (content voice_style : String) (u : UserRow)
    (env : TextEnv) (s : DBState) (h : Inv s) :
    Inv (create_post content voice_style u env s).2 := by
  by_cases hc : (content == "" || pyStrip content == "") = true
  · rw [create_post_err_eq content voice_style u env s hc]
    exact h
  · rcases hgp : generate_voice_from_text content u.username env.synth with ⟨url, dur⟩
    rw [create_post_ok_eq content voice_style u env s (by simpa using hc) url dur hgp]
    exact inv_append_fresh s _ h rfl rfl

/-- `create_post_from_recording` either leaves the store untouched (every
failure path) or appends one fresh post whose counter starts at 0. -/
theorem create_post_from_recording_state (file : Upload) (u : UserRow)
    (env : RecEnv) (s : DBState) :
    (create_post_from_recording file u env s).2.1 = s ∨
    ∃ row : PostRow, row.id = s.nextPostId ∧ row.likes = 0 ∧
      (create_post_from_recording file u env s).2.1 =
        { s with posts := s.posts ++ [row], nextPostId := s.nextPostId + 1 } := by
  unfold create_post_from_recording
  split_ifs with h1 h2 h3
  · exact Or.inl rfl
  · exact Or.inl rfl
  · exact Or.inl rfl
  · cases ht : transcribe_audio_to_text env.stt with
    | none => exact Or.inl rfl
    | some t =>
        simp only
        split_ifs with h4 h5
        · exact Or.inl rfl
        · exact Or.inl rfl
        · exact Or.inr ⟨_, rfl, rfl, rfl⟩

theorem inv_create_post_from_recording (file : Upload) (u : UserRow)
    (env : RecEnv) (s : DBState) (h : Inv s) :
    Inv (create_post_from_recording file u env s).2.1 := by
  rcases create_post_from_recording_state file u env s with heq | ⟨row, hid, hlikes, heq⟩
  · rw [heq]; exact h
  · rw [heq]; exact inv_append_fresh s row h hid hlikes

theorem inv_toggle_like_post (s : DBState) (uid pid : Nat) (h : Inv s) :
    Inv (toggle_like_post s uid pid).2 := by
  obtain ⟨h1, h2, h3⟩ := h
  cases hp : findPost s pid with
  | none =>
      unfold toggle_like_post
      rw [hp]
      exact ⟨h1, h2, h3⟩
  | some p0 =>
      have hpid : p0.id = pid := by
        have := List.find?_some hp
        simpa using this
      have hp0mem : p0 ∈ s.posts := List.mem_of_find?_eq_some hp
      cases hf : findLike s uid pid with
      | some l0 =>
          rw [toggle_like_found_eq s uid pid p0 l0 hp hf]
          exact ⟨h1, h2, h3⟩
      | none =>
          rw [toggle_like_insert_eq s uid pid p0 hp hf]
          refine ⟨?_, ?_, ?_⟩
          · intro p hp'
            rcases List.mem_map.mp hp' with ⟨q, hq, rfl⟩
            by_cases hqid : (q.id == pid) = true
            · rw [if_pos hqid]; exact h1 q hq
            · rw [if_neg hqid]; exact h1 q hq
          · intro l hl
            rcases List.mem_cons.mp hl with rfl | hl
            · show pid < s.nextPostId
              rw [← hpid]
              exact h1 p0 hp0mem
            · exact h2 l hl
          · intro p hp'
            rcases List.mem_map.mp hp' with ⟨q, hq, rfl⟩
            have h3q := h3 q hq
            unfold likeCount at h3q
            by_cases hqid : (q.id == pid) = true
            · have hq2 : q.id = pid := by simpa using hqid
              rw [if_pos hqid]
              show q.likes + 1 =
                ((((⟨uid, pid⟩ : LikeRow) :: s.likes).filter
                  (fun l => l.post == q.id)).length : Int)
              rw [List.filter_cons]
              have hb : ((⟨uid, pid⟩ : LikeRow).post == q.id) = true := by
                simp [hq2]
              rw [if_pos hb]
              simp only [List.length_cons]
              omega
            · have hq2 : q.id ≠ pid := by simpa using hqid
              rw [if_neg hqid]
              show q.likes =
                ((((⟨uid, pid⟩ : LikeRow) :: s.likes).filter
                  (fun l => l.post == q.id)).length : Int)
              rw [List.filter_cons]
              have hb : ¬(((⟨uid, pid⟩ : LikeRow).post == q.id) = true) := by
                simp only [beq_iff_eq]
                exact fun hh => hq2 hh.symm
              rw [if_neg hb]
              omega

/-- C1 (the code contradicts the claim): creation and `toggle_like_post` do
preserve "likes counter = number of PostLike rows" (see `inv_create_post`,
`inv_create_post_from_recording`, `inv_toggle_like_post`), but `delete_post`
breaks it: from the invariant-satisfying store with post 1 liked once
(counter 1, one row), the author's delete removes the `PostLike` rows via
the table-level `PostLike.delete()` and then crashes with the
`AttributeError` 500 at `post.remove()` (a select() dict has no `remove`),
so the post row survives with its stale counter 1 over 0 rows — the
invariant is violated and the post is never removed. -/
theorem c1_delete_breaks_invariant :
    Inv exDBLiked ∧
    delete_post exDBLiked 7 1 =
      (.error ⟨500, "Internal Server Error"⟩, ⟨[exPostLiked], [], 2⟩) ∧
    likeCount (delete_post exDBLiked 7 1).2 1 = 0 ∧
    (findPost (delete_post exDBLiked 7 1).2 1).map (fun p => p.likes) = some 1 ∧
    ¬ Inv (delete_post exDBLiked 7 1).2 := by
  refine ⟨by decide, by decide, by decide, by decide, by decide⟩

end EchoApi
